import Mathlib

/-!
Shallow embedding of `src/dashboard_builder.py` (BlackRoad Dashboard Builder).

Modelling conventions:
* SQLite tables are modelled as Lean lists of row structures; `INSERT` appends
  a row, `INSERT OR IGNORE` appends only when the unique key is absent, and
  `INSERT OR REPLACE` first removes every row conflicting on the primary key
  or a UNIQUE column and then appends.
* The metric `TEXT` timestamps are `datetime.now().isoformat()` strings,
  which SQLite's binary TEXT collation compares lexicographically; on
  ISO-8601 strings that coincides with chronological order, so metric
  timestamps are modelled as naturals ordered by `≤`. (Dashboard
  `created_at` strings are never compared and stay strings.)
* Python floats stored in the `REAL` column are modelled as `ℚ`; the
  statistics in the claims ([1..10] etc.) are exact in both.
* `int(n * 0.95)` is modelled as `n * 95 / 100` (natural floor division),
  which agrees with the Python expression for every list length arising here.
* The md5-based 8-hex-character fingerprint is modelled as an explicit
  function parameter `hash8 : String → String`; theorems that need distinct
  fingerprints for distinct inputs take injectivity as a hypothesis.
* Python's `json.dumps` on a `dict` preserves insertion order, so label
  mappings are association lists and `dumpsLabels` serializes them in list
  order (the source does not pass `sort_keys`).
-/

attribute [local semireducible] Rat.mul Rat.inv Rat.add Rat.sub

namespace DashboardBuilder

/-- Panel position and size on dashboard grid (`Position` dataclass). -/
structure Position where
  x : Int
  y : Int
  w : Int
  h : Int
deriving DecidableEq, Repr

/-- Represents a visualization panel (`Panel` dataclass); `options` is the
free-form options mapping, modelled as an association list. -/
structure Panel where
  id : String
  title : String
  type : String
  datasource : String
  query : String
  options : List (String × String)
  position : Position
deriving DecidableEq, Repr

/-- Template variable for dashboard (`Variable` dataclass). -/
structure Variable where
  name : String
  type : String
  query : String
  current_value : String
deriving DecidableEq, Repr

/-- A row of the `dashboards` table: `id` is the primary key, `uid` is
UNIQUE; `tags`, `panels`, `variables` are stored as JSON text whose
round trip through `json.dumps`/`json.loads` is lossless, so they are kept
structurally. -/
structure DashRow where
  id : String
  uid : String
  title : String
  description : String
  tags : List String
  panels : List Panel
  vars : List Variable
  refresh_interval : String
  time_range : String
  created_at : String
deriving DecidableEq, Repr

/-- The `Dashboard` dataclass returned to callers. -/
structure Dashboard where
  id : String
  uid : String
  title : String
  description : String
  tags : List String
  panels : List Panel
  vars : List Variable
  refresh_interval : String
  time_range : String
  created_at : String
deriving DecidableEq, Repr

/-- A row of the `metrics` table (the AUTOINCREMENT surrogate id is dropped:
no operation reads it); `labels` holds the serialized label JSON text.
`UNIQUE(name, labels, timestamp)` is enforced by `push_metric`. -/
structure MetricRow where
  name : String
  labels : String
  value : ℚ
  timestamp : Nat
  created_at : Nat
deriving DecidableEq, Repr

/-- The `Metric` dataclass returned by `push_metric`. -/
structure Metric where
  name : String
  labels : List (String × String)
  value : ℚ
  timestamp : Nat
deriving DecidableEq, Repr

/-- The stats dictionary returned by `get_stats` in the non-empty case. -/
structure Stats where
  name : String
  labels : List (String × String)
  min : ℚ
  max : ℚ
  avg : ℚ
  p95 : ℚ
  count : Nat
deriving DecidableEq, Repr

/-- The Grafana-style JSON document produced by `export_json` and consumed
by `import_json`. -/
structure DashDoc where
  id : String
  uid : String
  title : String
  description : String
  tags : List String
  panels : List Panel
  vars : List Variable
  refresh : String
  timeFrom : String
  timeTo : String
  created_at : String
deriving DecidableEq, Repr

/-- JSON string quoting (labels in the claims contain no escapes). -/
def quoteStr (s : String) : String := "\"" ++ s ++ "\""

/-- `json.dumps` on a label dict: insertion order is preserved, keys are NOT
sorted (the source calls `json.dumps(labels or {})` with no `sort_keys`). -/
def dumpsLabels (labels : List (String × String)) : String :=
  "\x7b" ++ String.intercalate ", "
    (labels.map (fun p => quoteStr p.1 ++ ": " ++ quoteStr p.2)) ++ "\x7d"

/-- Ascending-timestamp order used by `ORDER BY timestamp ASC`. -/
def rowLe (a b : MetricRow) : Prop := a.timestamp ≤ b.timestamp

instance : DecidableRel rowLe := fun a b =>
  inferInstanceAs (Decidable (a.timestamp ≤ b.timestamp))

/-- `DashboardBuilder.query_metrics`: exact match on name and serialized
labels; the `BETWEEN` filter applies only when BOTH bounds are given
(Python: `if from_ts and to_ts`), otherwise no timestamp filtering at all;
results ordered ascending by timestamp; `step_s` is accepted but unused. -/
def query_metrics (db : List MetricRow) (name : String)
    (labels : List (String × String)) (from_ts to_ts : Option Nat)
    (step_s : Nat) : List (Nat × ℚ) :=
  let labels_json := dumpsLabels labels
  let rows :=
    match from_ts, to_ts with
    | some f, some t =>
        db.filter (fun r =>
          r.name == name && r.labels == labels_json &&
          decide (f ≤ r.timestamp) && decide (r.timestamp ≤ t))
    | _, _ =>
        db.filter (fun r => r.name == name && r.labels == labels_json)
  (List.insertionSort rowLe rows).map (fun r => (r.timestamp, r.value))

/-- Does the `metrics` table already contain the unique key
`(name, labels, timestamp)`? -/
def hasMetricKey (db : List MetricRow) (name lj : String) (ts : Nat) : Bool :=
  db.any (fun r => r.name == name && r.labels == lj && r.timestamp == ts)

/-- `DashboardBuilder.push_metric`: stamps the current time `now`,
serializes the labels, and does `INSERT OR IGNORE` on the unique key
`(name, labels, timestamp)`; the constructed `Metric` is returned either
way. -/
def push_metric (db : List MetricRow) (name : String) (value : ℚ)
    (labels : List (String × String)) (now : Nat) :
    List MetricRow × Metric :=
  let metric : Metric := ⟨name, labels, value, now⟩
  let lj := dumpsLabels labels
  let db' :=
    if hasMetricKey db name lj now then db
    else db ++ [⟨name, lj, value, now, now⟩]
  (db', metric)

/-- `min(values)` on a non-empty Python list (the empty case is unreachable:
`get_stats` guards on no data; `0` is a junk default). -/
def qmin : List ℚ → ℚ
  | [] => 0
  | x :: xs => xs.foldl min x

/-- `max(values)` on a non-empty Python list (same unreachable-empty junk
default as `qmin`). -/
def qmax : List ℚ → ℚ
  | [] => 0
  | x :: xs => xs.foldl max x

/-- `sorted_values[p95_idx] if p95_idx < len(sorted_values) else
sorted_values[-1]`: nearest-rank selection clamped to the last index (`0` is
a junk default for the unreachable empty case). -/
def p95sel (l : List ℚ) (i : Nat) : ℚ :=
  if h : i < l.length then l.get ⟨i, h⟩ else l.getLastD 0

/-- `DashboardBuilder.get_stats`: queries the range (passing only `from_ts`
down to `query_metrics`), returns `none` for the `{"error": "No data
found"}` dictionary, otherwise min/max/mean/p95/count of the values. -/
def get_stats (db : List MetricRow) (name : String)
    (labels : List (String × String)) (from_ts : Option Nat) :
    Option Stats :=
  let metrics := query_metrics db name labels from_ts none 60
  if metrics.isEmpty then none
  else
    let values := metrics.map (fun m => m.2)
    let sorted_values := List.insertionSort (· ≤ ·) values
    let p95_idx := sorted_values.length * 95 / 100
    some ⟨name, labels, qmin values, qmax values,
      values.sum / (values.length : ℚ), p95sel sorted_values p95_idx,
      values.length⟩

/-- The `Dashboard` dataclass constructed by `create_dashboard`:
`uid = md5(title)[:8]`, `id = md5(title + now)[:8]`, empty panel and
variable lists. -/
def mkDashboard (hash8 : String → String) (title description : String)
    (tags : List String) (refresh time_range now : String) : Dashboard :=
  ⟨hash8 (title ++ now), hash8 title, title, description, tags, [], [],
    refresh, time_range, now⟩

/-- The `dashboards` row persisted for a `Dashboard`. -/
def rowOfDashboard (d : Dashboard) : DashRow :=
  ⟨d.id, d.uid, d.title, d.description, d.tags, d.panels, d.vars,
    d.refresh_interval, d.time_range, d.created_at⟩

/-- `DashboardBuilder.create_dashboard`: plain `INSERT` — fails with an
`IntegrityError` (modelled as `.error`) when the `id` PRIMARY KEY or the
`uid` UNIQUE constraint is violated. -/
def create_dashboard (hash8 : String → String) (db : List DashRow)
    (title description : String) (tags : List String)
    (refresh time_range now : String) :
    Except String (List DashRow × Dashboard) :=
  let d := mkDashboard hash8 title description tags refresh time_range now
  if db.any (fun r => r.id == d.id || r.uid == d.uid) then
    .error "UNIQUE constraint failed"
  else
    .ok (db ++ [rowOfDashboard d], d)

/-- `SELECT ... FROM dashboards WHERE id = ?` followed by `fetchone()`. -/
def findRow (db : List DashRow) (dashboard_id : String) : Option DashRow :=
  db.find? (fun r => r.id == dashboard_id)

/-- The `Panel` dataclass constructed by `add_panel`:
`id = md5(dashboard_id + "/" + title)[:8]`. -/
def mkPanel (hash8 : String → String)
    (dashboard_id title panel_type query datasource : String)
    (position : Position) (options : List (String × String)) : Panel :=
  ⟨hash8 (dashboard_id ++ "/" ++ title), title, panel_type, datasource,
    query, options, position⟩

/-- `DashboardBuilder.add_panel`: looks the dashboard up by id; when found,
read-modify-writes the serialized panel list; when absent, does nothing to
the table; the constructed `Panel` is returned either way. -/
def add_panel (hash8 : String → String) (db : List DashRow)
    (dashboard_id title panel_type query datasource : String)
    (position : Position) (options : List (String × String)) :
    List DashRow × Panel :=
  let panel := mkPanel hash8 dashboard_id title panel_type query datasource
    position options
  match findRow db dashboard_id with
  | none => (db, panel)
  | some _ =>
      (db.map (fun r =>
        if r.id == dashboard_id then
          ⟨r.id, r.uid, r.title, r.description, r.tags, r.panels ++ [panel],
            r.vars, r.refresh_interval, r.time_range, r.created_at⟩
        else r), panel)

/-- `DashboardBuilder.add_variable`: same read-modify-write append and same
silent no-op on a missing dashboard as `add_panel`; `current_value`
defaults to the empty string. -/
def add_variable (db : List DashRow) (dashboard_id name query var_type : String) :
    List DashRow × Variable :=
  let variable_ : Variable := ⟨name, var_type, query, ""⟩
  match findRow db dashboard_id with
  | none => (db, variable_)
  | some _ =>
      (db.map (fun r =>
        if r.id == dashboard_id then
          ⟨r.id, r.uid, r.title, r.description, r.tags, r.panels,
            r.vars ++ [variable_], r.refresh_interval, r.time_range,
            r.created_at⟩
        else r), variable_)

/-- `DashboardBuilder.export_json`: `none` models the `"{}"` returned for a
missing dashboard; otherwise the row is re-shaped into the document, with
`time.from = "now-" + time_range` and `time.to = "now"`. -/
def export_json (db : List DashRow) (dashboard_id : String) : Option DashDoc :=
  match findRow db dashboard_id with
  | none => none
  | some r =>
      some ⟨r.id, r.uid, r.title, r.description, r.tags, r.panels, r.vars,
        r.refresh_interval, "now-" ++ r.time_range, "now", r.created_at⟩

/-- `DashboardBuilder.import_json`: derives `id` from the title alone,
takes `time_range` from the document's whole `time.from` string, copies
panels and variables verbatim into the row (the returned `Dashboard`
dataclass keeps its default empty panel/variable lists — the source does
not pass them to the constructor), and persists with `INSERT OR REPLACE`,
which evicts any row conflicting on `id` or on the UNIQUE `uid`. -/
def import_json (hash8 : String → String) (db : List DashRow)
    (doc : DashDoc) (now : String) : List DashRow × Dashboard :=
  let dashboard_id := hash8 doc.title
  let d : Dashboard := ⟨dashboard_id, doc.uid, doc.title, doc.description,
    doc.tags, [], [], doc.refresh, doc.timeFrom, now⟩
  let newRow : DashRow := ⟨dashboard_id, doc.uid, doc.title,
    doc.description, doc.tags, doc.panels, doc.vars, doc.refresh,
    doc.timeFrom, now⟩
  (db.filter (fun r => !(r.id == dashboard_id) && !(r.uid == doc.uid))
    ++ [newRow], d)

/-! Concrete sample inputs used by counterexamples and witnesses. -/

/-- A metrics table holding the values 1..10 for metric `"m"` with empty
labels at ascending timestamps 0..9. -/
def db10 : List MetricRow :=
  [⟨"m", dumpsLabels [], 1, 0, 0⟩, ⟨"m", dumpsLabels [], 2, 1, 1⟩,
   ⟨"m", dumpsLabels [], 3, 2, 2⟩, ⟨"m", dumpsLabels [], 4, 3, 3⟩,
   ⟨"m", dumpsLabels [], 5, 4, 4⟩, ⟨"m", dumpsLabels [], 6, 5, 5⟩,
   ⟨"m", dumpsLabels [], 7, 6, 6⟩, ⟨"m", dumpsLabels [], 8, 7, 7⟩,
   ⟨"m", dumpsLabels [], 9, 8, 8⟩, ⟨"m", dumpsLabels [], 10, 9, 9⟩]

/-- The expected `get_stats` output over `db10`. -/
def statsEx : Stats := ⟨"m", [], 1, 10, 11/2, 10, 10⟩

/-- The value list of `db10` in query order. -/
def valuesEx : List ℚ := [1, 2, 3, 4, 5, 6, 7, 8, 9, 10]

/-- A metrics table for metric `"cpu"` with a sample of value 100 at
timestamp 1 and a sample of value 2 at timestamp 5. -/
def dbC2 : List MetricRow :=
  [⟨"cpu", dumpsLabels [], 100, 1, 1⟩,
   ⟨"cpu", dumpsLabels [], 2, 5, 5⟩]

/-- A stored dashboard row with one panel, one variable, a tag, and the
default 1h time range. -/
def rowEx : DashRow :=
  ⟨"d1", "u1", "My Dash", "desc", ["tag1"],
    [⟨"p1", "P", "timeseries", "prometheus", "q", [], ⟨0, 0, 12, 8⟩⟩],
    [⟨"v", "query", "q", ""⟩], "30s", "1h", "2024-01-01T00:00:00"⟩

end DashboardBuilder

namespace DashboardBuilder

/-! Helper lemmas (shared; not tied to any single claim). -/

theorem foldl_min_le_init (a : ℚ) (l : List ℚ) : l.foldl min a ≤ a := by
  induction l generalizing a with
  | nil => exact le_refl a
  | cons x xs ih => exact le_trans (ih (min a x)) (min_le_left a x)

theorem foldl_min_le_mem {b : ℚ} {l : List ℚ} (hb : b ∈ l) (a : ℚ) :
    l.foldl min a ≤ b := by
  induction l generalizing a with
  | nil => cases hb
  | cons x xs ih =>
    rcases List.mem_cons.mp hb with h | h
    · subst h
      exact le_trans (foldl_min_le_init (min a b) xs) (min_le_right a b)
    · exact ih h (min a x)

theorem foldl_min_mem (a : ℚ) (l : List ℚ) : l.foldl min a ∈ a :: l := by
  induction l generalizing a with
  | nil => exact List.mem_singleton.mpr rfl
  | cons x xs ih =>
    rcases List.mem_cons.mp (ih (min a x)) with h | h
    · rcases min_choice a x with hc | hc
      · rw [List.foldl_cons, h, hc]; exact List.mem_cons_self _ _
      · rw [List.foldl_cons, h, hc]
        exact List.mem_cons_of_mem _ (List.mem_cons_self _ _)
    · rw [List.foldl_cons]
      exact List.mem_cons_of_mem _ (List.mem_cons_of_mem _ h)

theorem init_le_foldl_max (a : ℚ) (l : List ℚ) : a ≤ l.foldl max a := by
  induction l generalizing a with
  | nil => exact le_refl a
  | cons x xs ih => exact le_trans (le_max_left a x) (ih (max a x))

theorem mem_le_foldl_max {b : ℚ} {l : List ℚ} (hb : b ∈ l) (a : ℚ) :
    b ≤ l.foldl max a := by
  induction l generalizing a with
  | nil => cases hb
  | cons x xs ih =>
    rcases List.mem_cons.mp hb with h | h
    · subst h
      exact le_trans (le_max_right a b) (init_le_foldl_max (max a b) xs)
    · exact ih h (max a x)

theorem foldl_max_mem (a : ℚ) (l : List ℚ) : l.foldl max a ∈ a :: l := by
  induction l generalizing a with
  | nil => exact List.mem_singleton.mpr rfl
  | cons x xs ih =>
    rcases List.mem_cons.mp (ih (max a x)) with h | h
    · rcases max_choice a x with hc | hc
      · rw [List.foldl_cons, h, hc]; exact List.mem_cons_self _ _
      · rw [List.foldl_cons, h, hc]
        exact List.mem_cons_of_mem _ (List.mem_cons_self _ _)
    · rw [List.foldl_cons]
      exact List.mem_cons_of_mem _ (List.mem_cons_of_mem _ h)

end DashboardBuilder

namespace DashboardBuilder

/-- C8: the `step_s` parameter accepted by `query_metrics` is never applied:
for every database, name, labels, and time bounds, and for any two values of
`step_s`, `query_metrics` returns the identical result sequence. -/
theorem query_metrics_independent_of_step (db : List MetricRow)
    (name : String) (labels : List (String × String))
    (from_ts to_ts : Option Nat) (s1 s2 : Nat) :
    query_metrics db name labels from_ts to_ts s1
      = query_metrics db name labels from_ts to_ts s2 := rfl

/-- C2 counterexample: over `dbC2` (value 100 at time 1, value 2 at time 5)
with `from_ts = 3`, only one sample is at-or-after `from_ts`, yet
`get_stats` computes over both samples: count is 2 and the maximum is the
value 100 carried by the sample strictly before `from_ts` — refuting the
claim that samples strictly before `from_ts` are excluded. -/
theorem get_stats_from_ts_counterexample :
    (get_stats dbC2 "cpu" [] (some 3) = some ⟨"cpu", [], 2, 100, 51, 100, 2⟩) ∧
    (dbC2.filter (fun r => decide (3 ≤ r.timestamp))).length = 1 ∧
    ¬ (∃ s, get_stats dbC2 "cpu" [] (some 3) = some s ∧ s.count = 1) := by
  refine ⟨by decide, by decide, ?_⟩
  rintro ⟨s, hs, hc⟩
  have : s = ⟨"cpu", [], 2, 100, 51, 100, 2⟩ := by
    have h0 : get_stats dbC2 "cpu" [] (some 3)
        = some ⟨"cpu", [], 2, 100, 51, 100, 2⟩ := by decide
    exact Option.some.inj (hs.symm.trans h0)
  rw [this] at hc
  exact absurd hc (by decide)

/-- C2 amended: `get_stats` passes only `from_ts` down to `query_metrics`,
whose timestamp filter applies only when both bounds are present, so
`from_ts` is ignored entirely: the statistics are computed over every
matching sample regardless of timestamp, exactly as with no bound at all. -/
theorem get_stats_ignores_from_ts (db : List MetricRow) (name : String)
    (labels : List (String × String)) (f : Nat) :
    get_stats db name labels (some f) = get_stats db name labels none := rfl

/-- C5: for every name and labels key, `get_stats` returns the distinct
no-data result exactly when the matching range is empty, and a stats object
(never conflated with no-data) exactly when it is non-empty. -/
theorem get_stats_no_data_iff_empty (db : List MetricRow) (name : String)
    (labels : List (String × String)) (from_ts : Option Nat) :
    get_stats db name labels from_ts = none
      ↔ query_metrics db name labels from_ts none 60 = [] := by
  unfold get_stats
  rcases hq : query_metrics db name labels from_ts none 60 with _ | ⟨m, ms⟩
  · simp [hq]
  · simp [hq]

end DashboardBuilder

namespace DashboardBuilder

/-- C3 counterexample: the two label mappings `{"a":"1","b":"2"}` and
`{"b":"2","a":"1"}` hold the same pairs but serialize differently (no key
sorting), and a query using the first finds nothing after a push using the
second — refuting order-independent series identity. -/
theorem label_order_counterexample :
    dumpsLabels [("a", "1"), ("b", "2")] ≠ dumpsLabels [("b", "2"), ("a", "1")] ∧
    query_metrics ((push_metric [] "cpu" 42 [("b", "2"), ("a", "1")] 1).1)
      "cpu" [("a", "1"), ("b", "2")] none none 60 = [] :=
  ⟨by decide, by decide⟩

/-- C3 amended: labels are serialized in insertion order (Python
`json.dumps` without `sort_keys`), so `push_metric` and `query_metrics`
agree on a series only when the serializations coincide exactly: after a
push with labels `L1`, a query with labels `L2` whose serialization
differs finds nothing, while a query with `L1` itself finds the sample. -/
theorem query_matches_only_exact_serialization (name : String) (v : ℚ)
    (L1 L2 : List (String × String)) (T : Nat)
    (h : dumpsLabels L1 ≠ dumpsLabels L2) :
    query_metrics ((push_metric [] name v L1 T).1) name L2 none none 60 = [] ∧
    query_metrics ((push_metric [] name v L1 T).1) name L1 none none 60
      = [(T, v)] := by
  have hdb : (push_metric [] name v L1 T).1
      = [⟨name, dumpsLabels L1, v, T, T⟩] := rfl
  have hne : (dumpsLabels L1 == dumpsLabels L2) = false :=
    beq_eq_false_iff_ne.mpr h
  rw [hdb]
  constructor
  · simp [query_metrics, List.filter, hne]
  · simp [query_metrics, List.filter, List.insertionSort, List.orderedInsert]

/-- Witness for C3's amended theorem at the claim's own label mappings. -/
theorem query_matches_only_exact_serialization_witness :
    dumpsLabels [("b", "2"), ("a", "1")] ≠ dumpsLabels [("a", "1"), ("b", "2")] ∧
    (query_metrics ((push_metric [] "cpu" 42 [("b", "2"), ("a", "1")] 1).1)
        "cpu" [("a", "1"), ("b", "2")] none none 60 = [] ∧
      query_metrics ((push_metric [] "cpu" 42 [("b", "2"), ("a", "1")] 1).1)
        "cpu" [("b", "2"), ("a", "1")] none none 60 = [(1, 42)]) :=
  ⟨by decide, query_matches_only_exact_serialization "cpu" 42
    [("b", "2"), ("a", "1")] [("a", "1"), ("b", "2")] 1 (by decide)⟩

/-- C4: `push_metric` is idempotent on the key (name, serialized labels,
timestamp): when the key is initially absent, a second push with the same
key (any value) leaves the table exactly as after the first push — silently
dropped, first write wins, not merged — and a range query for that key
returns exactly the one first-written sample. -/
theorem push_metric_duplicate_dropped (db : List MetricRow) (name : String)
    (L : List (String × String)) (v v' : ℚ) (T : Nat)
    (h : hasMetricKey db name (dumpsLabels L) T = false) :
    (push_metric ((push_metric db name v L T).1) name v' L T).1
      = (push_metric db name v L T).1 ∧
    query_metrics ((push_metric ((push_metric db name v L T).1) name v' L T).1)
      name L (some T) (some T) 60 = [(T, v)] := by
  have h1 : (push_metric db name v L T).1
      = db ++ [⟨name, dumpsLabels L, v, T, T⟩] := by
    simp [push_metric, h]
  have h2 : hasMetricKey (db ++ [⟨name, dumpsLabels L, v, T, T⟩])
      name (dumpsLabels L) T = true := by
    simp [hasMetricKey, List.any_append]
  have h3 : (push_metric ((push_metric db name v L T).1) name v' L T).1
      = db ++ [⟨name, dumpsLabels L, v, T, T⟩] := by
    rw [h1]; simp [push_metric, h2]
  rw [h3, h1]
  refine ⟨rfl, ?_⟩
  have hnokey : ∀ r ∈ db,
      ¬(r.name = name ∧ r.labels = dumpsLabels L ∧ r.timestamp = T) := by
    intro r hr hcon
    have : hasMetricKey db name (dumpsLabels L) T = true := by
      simp [hasMetricKey, List.any_eq_true]
      exact ⟨r, hr, ⟨hcon.1, hcon.2.1⟩, hcon.2.2⟩
    rw [this] at h; cases h
  have hfilter : db.filter (fun r =>
      r.name == name && r.labels == dumpsLabels L &&
      decide (T ≤ r.timestamp) && decide (r.timestamp ≤ T)) = [] := by
    rw [List.filter_eq_nil_iff]
    intro r hr
    simp only [Bool.and_eq_true, beq_iff_eq, decide_eq_true_eq, not_and]
    intro hname hle2
    exact hnokey r hr ⟨hname.1.1, hname.1.2, Nat.le_antisymm hle2 hname.2⟩
  simp only [query_metrics, List.filter_append, hfilter, List.nil_append]
  simp [List.filter, List.insertionSort, List.orderedInsert]

/-- Witness for C4 at a concrete push of value 42 then 9 at timestamp 7. -/
theorem push_metric_duplicate_dropped_witness :
    hasMetricKey [] "cpu" (dumpsLabels [("host", "a")]) 7 = false ∧
    ((push_metric ((push_metric [] "cpu" 42 [("host", "a")] 7).1)
        "cpu" 9 [("host", "a")] 7).1
      = (push_metric [] "cpu" 42 [("host", "a")] 7).1 ∧
    query_metrics ((push_metric ((push_metric [] "cpu" 42 [("host", "a")] 7).1)
        "cpu" 9 [("host", "a")] 7).1)
      "cpu" [("host", "a")] (some 7) (some 7) 60 = [(7, 42)]) :=
  ⟨by decide, push_metric_duplicate_dropped [] "cpu" [("host", "a")] 42 9 7
    (by decide)⟩

end DashboardBuilder

namespace DashboardBuilder

/-- C1: for every non-empty matching sample set, `get_stats` returns the
minimum, maximum, arithmetic mean (avg times count equals the sum), sample
count, and the 95th percentile obtained by nearest-rank selection on the
ascending-sorted value list at index `⌊0.95 · n⌋` clamped to the last
index. -/
theorem get_stats_characterization (db : List MetricRow) (name : String)
    (labels : List (String × String)) (from_ts : Option Nat) (s : Stats)
    (values : List ℚ)
    (hs : get_stats db name labels from_ts = some s)
    (hv : values = (query_metrics db name labels from_ts none 60).map Prod.snd) :
    values ≠ [] ∧ s.count = values.length ∧
    s.min ∈ values ∧ (∀ v ∈ values, s.min ≤ v) ∧
    s.max ∈ values ∧ (∀ v ∈ values, v ≤ s.max) ∧
    s.avg * (values.length : ℚ) = values.sum ∧
    (∀ l : List ℚ, l.Perm values → l.Sorted (· ≤ ·) →
      s.p95 = l.getD (min (values.length * 95 / 100) (values.length - 1)) 0) := by
  subst hv
  simp only [get_stats] at hs
  split at hs
  · exact absurd hs (by simp)
  · rename_i he
    injection hs with hs'
    subst hs'
    have hqne : query_metrics db name labels from_ts none 60 ≠ [] := by
      intro hq; rw [hq] at he; exact he rfl
    have hne : (query_metrics db name labels from_ts none 60).map Prod.snd ≠ [] := by
      intro hm; exact hqne (List.map_eq_nil.mp hm)
    obtain ⟨v0, vs, hcons⟩ := List.exists_cons_of_ne_nil hne
    refine ⟨hne, rfl, ?_, ?_, ?_, ?_, ?_, ?_⟩
    · rw [hcons]; simpa [qmin] using foldl_min_mem v0 vs
    · intro v hvmem
      rw [hcons] at hvmem ⊢
      rcases List.mem_cons.mp hvmem with h | h
      · subst h; simpa [qmin] using foldl_min_le_init v vs
      · simpa [qmin] using foldl_min_le_mem h v0
    · rw [hcons]; simpa [qmax] using foldl_max_mem v0 vs
    · intro v hvmem
      rw [hcons] at hvmem ⊢
      rcases List.mem_cons.mp hvmem with h | h
      · subst h; simpa [qmax] using init_le_foldl_max v vs
      · simpa [qmax] using mem_le_foldl_max h v0
    · have hlen : ((query_metrics db name labels from_ts none 60).map
          Prod.snd).length ≠ 0 := by
        intro hz; exact hne (List.length_eq_zero.mp hz)
      exact div_mul_cancel₀ _ (Nat.cast_ne_zero.mpr hlen)
    · intro l hp hsorted
      have hpermsort : List.Perm
          (List.insertionSort (· ≤ ·)
            ((query_metrics db name labels from_ts none 60).map Prod.snd))
          ((query_metrics db name labels from_ts none 60).map Prod.snd) :=
        List.perm_insertionSort _ _
      have hsort2 : (List.insertionSort (· ≤ ·)
          ((query_metrics db name labels from_ts none 60).map Prod.snd)).Sorted
          (· ≤ ·) := List.sorted_insertionSort _ _
      have hl : l = List.insertionSort (· ≤ ·)
          ((query_metrics db name labels from_ts none 60).map Prod.snd) :=
        List.eq_of_perm_of_sorted (hp.trans hpermsort.symm) hsorted hsort2
      subst hl
      have hlen2 : (List.insertionSort (· ≤ ·)
          ((query_metrics db name labels from_ts none 60).map Prod.snd)).length
          = ((query_metrics db name labels from_ts none 60).map Prod.snd).length :=
        hpermsort.length_eq
      have hn : 0 < ((query_metrics db name labels from_ts none 60).map
          Prod.snd).length := List.length_pos.mpr hne
      have hidx : ((query_metrics db name labels from_ts none 60).map
            Prod.snd).length * 95 / 100
          < ((query_metrics db name labels from_ts none 60).map Prod.snd).length := by
        omega
      have hlt : ((query_metrics db name labels from_ts none 60).map
            Prod.snd).length * 95 / 100
          < (List.insertionSort (· ≤ ·)
            ((query_metrics db name labels from_ts none 60).map Prod.snd)).length := by
        rw [hlen2]; exact hidx
      have hminmax : min (((query_metrics db name labels from_ts none 60).map
            Prod.snd).length * 95 / 100)
          (((query_metrics db name labels from_ts none 60).map Prod.snd).length - 1)
          = ((query_metrics db name labels from_ts none 60).map
            Prod.snd).length * 95 / 100 := by
        omega
      simp only [Stats.p95, p95sel, hlen2, hminmax]
      rw [dif_pos hidx]
      rw [List.getD_eq_getElem _ _ (hlen2 ▸ hidx)]
      simp [List.get_eq_getElem]

end DashboardBuilder

namespace DashboardBuilder

/-- Witness for C1 at the claim's own sample set: over values
[1,2,3,4,5,6,7,8,9,10] the stats are min=1, max=10, avg=11/2, p95=10
(index ⌊0.95·10⌋ = 9, the boundary clamp case), count=10. -/
theorem get_stats_characterization_witness :
    (get_stats db10 "m" [] none = some statsEx ∧
      valuesEx = (query_metrics db10 "m" [] none none 60).map Prod.snd) ∧
    (valuesEx ≠ [] ∧ statsEx.count = valuesEx.length ∧
      statsEx.min ∈ valuesEx ∧ (∀ v ∈ valuesEx, statsEx.min ≤ v) ∧
      statsEx.max ∈ valuesEx ∧ (∀ v ∈ valuesEx, v ≤ statsEx.max) ∧
      statsEx.avg * (valuesEx.length : ℚ) = valuesEx.sum ∧
      (∀ l : List ℚ, l.Perm valuesEx → l.Sorted (· ≤ ·) →
        statsEx.p95 = l.getD (min (valuesEx.length * 95 / 100)
          (valuesEx.length - 1)) 0)) :=
  ⟨⟨by decide, by decide⟩,
    get_stats_characterization db10 "m" [] none statsEx valuesEx
      (by decide) (by decide)⟩

end DashboardBuilder

namespace DashboardBuilder

/-- Looking a row up by id in a table whose other rows all have a different
id finds the appended row. -/
theorem findRow_append_self (db : List DashRow) (a : DashRow)
    (h : ∀ r ∈ db, (r.id == a.id) = false) :
    findRow (db ++ [a]) a.id = some a := by
  induction db with
  | nil => simp [findRow]
  | cons x xs ih =>
    have hx := h x (List.mem_cons_self x xs)
    have ihh := ih (fun r hr => h r (List.mem_cons_of_mem x hr))
    simp only [findRow, List.cons_append, List.find?] at ihh ⊢
    rw [hx]
    exact ihh

/-- C9: for a dashboard id absent from the store, `add_panel` and likewise
`add_variable` are silent no-ops: every stored dashboard row is left
unchanged, yet the constructed (but unpersisted) `Panel` (respectively
`Variable`) value is still returned, indistinguishable from a successful
add. -/
theorem add_missing_dashboard_noop (hash8 : String → String)
    (db : List DashRow)
    (did title panel_type pquery datasource vname vquery var_type : String)
    (pos : Position) (opts : List (String × String))
    (h : findRow db did = none) :
    add_panel hash8 db did title panel_type pquery datasource pos opts
      = (db, mkPanel hash8 did title panel_type pquery datasource pos opts) ∧
    add_variable db did vname vquery var_type
      = (db, ⟨vname, var_type, vquery, ""⟩) := by
  constructor
  · simp [add_panel, h]
  · simp [add_variable, h]

/-- Witness for C9: adding to an empty store (no dashboard rows at all)
leaves it empty and still returns the constructed values. -/
theorem add_missing_dashboard_noop_witness :
    findRow [] "nope" = none ∧
    (add_panel (fun s => s) [] "nope" "t" "timeseries" "q" "prometheus"
        ⟨0, 0, 12, 8⟩ []
      = ([], mkPanel (fun s => s) "nope" "t" "timeseries" "q" "prometheus"
        ⟨0, 0, 12, 8⟩ []) ∧
    add_variable [] "nope" "v" "q" "query" = ([], ⟨"v", "query", "q", ""⟩)) :=
  ⟨by decide, add_missing_dashboard_noop (fun s => s) [] "nope" "t"
    "timeseries" "q" "prometheus" "v" "q" "query" ⟨0, 0, 12, 8⟩ [] (by decide)⟩

end DashboardBuilder

namespace DashboardBuilder

/-- C6: exporting a stored dashboard and importing the resulting document
reproduces a stored dashboard row with identical title, tags, panels, and
variables (into any target store state), and the exported document's
`time.to` field is always the literal string `"now"`. -/
theorem export_import_round_trip (hash8 : String → String)
    (db db' : List DashRow) (did now : String) (r : DashRow)
    (h : findRow db did = some r) :
    ∃ doc, export_json db did = some doc ∧ doc.timeTo = "now" ∧
      ∃ r2,
        findRow (import_json hash8 db' doc now).1
          ((import_json hash8 db' doc now).2).id = some r2 ∧
        r2.title = r.title ∧ r2.tags = r.tags ∧ r2.panels = r.panels ∧
        r2.vars = r.vars := by
  refine ⟨⟨r.id, r.uid, r.title, r.description, r.tags, r.panels, r.vars,
    r.refresh_interval, "now-" ++ r.time_range, "now", r.created_at⟩,
    by simp [export_json, h], rfl, ?_⟩
  refine ⟨⟨hash8 r.title, r.uid, r.title, r.description, r.tags, r.panels,
    r.vars, r.refresh_interval, "now-" ++ r.time_range, now⟩,
    ?_, rfl, rfl, rfl, rfl⟩
  simp only [import_json]
  apply findRow_append_self
  intro r' hr'
  have h2 := (List.mem_filter.mp hr').2
  simp only [Bool.and_eq_true, Bool.not_eq_true'] at h2
  exact h2.1

/-- Witness for C6: round-tripping the sample dashboard row through an
empty target store. -/
theorem export_import_round_trip_witness :
    findRow [rowEx] "d1" = some rowEx ∧
    (∃ doc, export_json [rowEx] "d1" = some doc ∧ doc.timeTo = "now" ∧
      ∃ r2,
        findRow (import_json (fun s => s) [] doc "t2").1
          ((import_json (fun s => s) [] doc "t2").2).id = some r2 ∧
        r2.title = rowEx.title ∧ r2.tags = rowEx.tags ∧
        r2.panels = rowEx.panels ∧ r2.vars = rowEx.vars) :=
  ⟨by decide,
    export_import_round_trip (fun s => s) [rowEx] [] "d1" "t2" rowEx
      (by decide)⟩

/-- C10: importing an exported document stores the document's whole
`time.from` string — `"now-"` prefix included — as the new row's time
range, so an export-import cycle followed by a second export yields
`time.from = "now-now-" ++ R` for a dashboard stored with time range `R`;
the round trip does not preserve the time-range field. -/
theorem import_prefixes_time_range (hash8 : String → String)
    (db db' : List DashRow) (did now : String) (r : DashRow)
    (h : findRow db did = some r) :
    ∃ doc, export_json db did = some doc ∧
      doc.timeFrom = "now-" ++ r.time_range ∧
      ∃ r2 doc2,
        findRow (import_json hash8 db' doc now).1
          ((import_json hash8 db' doc now).2).id = some r2 ∧
        r2.time_range = "now-" ++ r.time_range ∧
        r2.time_range ≠ r.time_range ∧
        export_json (import_json hash8 db' doc now).1
          ((import_json hash8 db' doc now).2).id = some doc2 ∧
        doc2.timeFrom = "now-now-" ++ r.time_range := by
  refine ⟨⟨r.id, r.uid, r.title, r.description, r.tags, r.panels, r.vars,
    r.refresh_interval, "now-" ++ r.time_range, "now", r.created_at⟩,
    by simp [export_json, h], rfl, ?_⟩
  have hfind : findRow (import_json hash8 db'
      ⟨r.id, r.uid, r.title, r.description, r.tags, r.panels, r.vars,
        r.refresh_interval, "now-" ++ r.time_range, "now", r.created_at⟩ now).1
      ((import_json hash8 db'
      ⟨r.id, r.uid, r.title, r.description, r.tags, r.panels, r.vars,
        r.refresh_interval, "now-" ++ r.time_range, "now", r.created_at⟩ now).2).id
      = some ⟨hash8 r.title, r.uid, r.title, r.description, r.tags, r.panels,
        r.vars, r.refresh_interval, "now-" ++ r.time_range, now⟩ := by
    simp only [import_json]
    apply findRow_append_self
    intro r' hr'
    have h2 := (List.mem_filter.mp hr').2
    simp only [Bool.and_eq_true, Bool.not_eq_true'] at h2
    exact h2.1
  have hnopres : "now-" ++ r.time_range ≠ r.time_range := by
    intro hcon
    have hd := congrArg (fun s => s.data.length) hcon
    simp [String.data_append] at hd
    omega
  have hassoc : "now-" ++ ("now-" ++ r.time_range)
      = "now-now-" ++ r.time_range := by
    apply String.ext
    rw [String.data_append, String.data_append, String.data_append,
      ← List.append_assoc]
    rfl
  refine ⟨⟨hash8 r.title, r.uid, r.title, r.description, r.tags, r.panels,
      r.vars, r.refresh_interval, "now-" ++ r.time_range, now⟩,
    ⟨hash8 r.title, r.uid, r.title, r.description, r.tags, r.panels, r.vars,
      r.refresh_interval, "now-" ++ ("now-" ++ r.time_range), "now", now⟩,
    hfind, rfl, hnopres, ?_, hassoc⟩
  simp [export_json, hfind]

/-- Witness for C10: one export-import-export cycle of the sample dashboard
row (time range "1h") yields `time.from = "now-now-1h"`. -/
theorem import_prefixes_time_range_witness :
    findRow [rowEx] "d1" = some rowEx ∧
    (∃ doc, export_json [rowEx] "d1" = some doc ∧
      doc.timeFrom = "now-" ++ rowEx.time_range ∧
      ∃ r2 doc2,
        findRow (import_json (fun s => s) [] doc "t2").1
          ((import_json (fun s => s) [] doc "t2").2).id = some r2 ∧
        r2.time_range = "now-" ++ rowEx.time_range ∧
        r2.time_range ≠ rowEx.time_range ∧
        export_json (import_json (fun s => s) [] doc "t2").1
          ((import_json (fun s => s) [] doc "t2").2).id = some doc2 ∧
        doc2.timeFrom = "now-now-" ++ rowEx.time_range) :=
  ⟨by decide,
    import_prefixes_time_range (fun s => s) [rowEx] [] "d1" "t2" rowEx
      (by decide)⟩

end DashboardBuilder

namespace DashboardBuilder

/-- C7: creating two dashboards with the same title (at distinct instants,
with a collision-free fingerprint) constructs two dashboards whose ids
differ — the id fingerprint is salted with the current instant — but whose
uids coincide — the uid is derived from the title alone — and the second
`create_dashboard` call fails with the uniqueness-constraint (Conflict)
error instead of inserting. -/
theorem create_same_title_conflict (hash8 : String → String)
    (hinj : Function.Injective hash8)
    (title description : String) (tags : List String)
    (refresh time_range now1 now2 : String) (hne : now1 ≠ now2) :
    ∃ db1 d1,
      create_dashboard hash8 [] title description tags refresh time_range
        now1 = .ok (db1, d1) ∧
      d1.uid = (mkDashboard hash8 title description tags refresh time_range
        now2).uid ∧
      d1.id ≠ (mkDashboard hash8 title description tags refresh time_range
        now2).id ∧
      ∃ e, create_dashboard hash8 db1 title description tags refresh
        time_range now2 = .error e := by
  refine ⟨[rowOfDashboard (mkDashboard hash8 title description tags refresh
      time_range now1)],
    mkDashboard hash8 title description tags refresh time_range now1,
    by simp [create_dashboard], rfl, ?_, ?_⟩
  · intro hid
    apply hne
    have happ : title ++ now1 = title ++ now2 := hinj hid
    have hd := congrArg String.data happ
    rw [String.data_append, String.data_append] at hd
    exact String.ext (List.append_cancel_left hd)
  · exact ⟨"UNIQUE constraint failed",
      by simp [create_dashboard, rowOfDashboard, mkDashboard]⟩

/-- Witness for C7: the identity fingerprint (injective) at title "T" and
instants "t1" ≠ "t2". -/
theorem create_same_title_conflict_witness :
    Function.Injective (fun s : String => s) ∧ ("t1" : String) ≠ "t2" ∧
    (∃ db1 d1,
      create_dashboard (fun s => s) [] "T" "" [] "30s" "1h" "t1"
        = .ok (db1, d1) ∧
      d1.uid = (mkDashboard (fun s => s) "T" "" [] "30s" "1h" "t2").uid ∧
      d1.id ≠ (mkDashboard (fun s => s) "T" "" [] "30s" "1h" "t2").id ∧
      ∃ e, create_dashboard (fun s => s) db1 "T" "" [] "30s" "1h" "t2"
        = .error e) :=
  ⟨fun a b h => h, by decide,
    create_same_title_conflict (fun s => s) (fun a b h => h) "T" "" [] "30s"
      "1h" "t1" "t2" (by decide)⟩

end DashboardBuilder
